import Mathlib

/-!
# Verification of the Lucy Sounds Platform-Backend OAuth token lifecycle

Shallow embedding of the OAuth core of `backend-server.js`:
state-token codec, platform-config resolution, exchange request shapes,
token persistence (`getUserOAuthToken`) and the generic callback handler
`app.get('/api/auth/callback/:platform')`.

Conventions of the embedding:
* JavaScript strings that travel as raw bytes (the `state` parameter, JSON
  text, base64 text) are modelled as `List Nat` of byte values (< 256 where
  it matters); `String` is kept for identifiers that are only compared.
* Timestamps are `Nat` milliseconds; `new Date(a) < new Date(b)` becomes
  `a < b`.
* Supabase reads are modelled by pure queries over a `List` of rows; a
  transport error is an explicit boolean/`Option` input.
* `JSON.parse` is modelled on the sublanguage the flow exercises: an object
  literal of string-valued members without surrounding whitespace.  Node's
  `Buffer.from(s, 'base64')` is modelled on the well-formed base64 grammar
  (Node is lenient on malformed input; every input considered here is
  well-formed, produced by the inverse encoder).
-/

namespace LucyBackend

/-! ## TokenStore: rows of the `oauth_tokens` table -/

/-- A row of `oauth_tokens` as selected by `getUserOAuthToken`
(`access_token, refresh_token, expires_at, updated_at` plus the key). -/
structure TokenRow where
  user_id : String
  platform_id : String
  access_token : String
  refresh_token : Option String
  expires_at : Option Nat
  updated_at : Nat
  deriving Repr, DecidableEq

/-- The row-selection predicate of the supabase query:
`.eq('user_id', userId).eq('platform_id', platform)`. -/
def rowMatches (userId platform : String) (r : TokenRow) : Bool :=
  decide (r.user_id = userId ∧ r.platform_id = platform)

/-- Insert one row into a list kept in descending `updated_at` order
(stable: an existing row with equal `updated_at` stays in front). -/
def insertDesc (r : TokenRow) : List TokenRow → List TokenRow
  | [] => [r]
  | x :: xs => if r.updated_at ≤ x.updated_at then x :: insertDesc r xs else r :: x :: xs

/-- `.order('updated_at', { ascending: false })` of the supabase query. -/
def sortByUpdatedDesc : List TokenRow → List TokenRow
  | [] => []
  | x :: xs => insertDesc x (sortByUpdatedDesc xs)

/-- One duplicate-cleanup delete:
`.delete().eq('user_id', u).eq('platform_id', p).eq('updated_at', t)`. -/
def deleteByUpdatedAt (store : List TokenRow) (userId platform : String) (t : Nat) :
    List TokenRow :=
  store.filter fun r =>
    !(rowMatches userId platform r && decide (r.updated_at = t))

/-- The expiry test of `getUserOAuthToken`:
`tokenData.expires_at && new Date(tokenData.expires_at) < new Date()`. -/
def isExpired (r : TokenRow) (now : Nat) : Bool :=
  match r.expires_at with
  | some e => decide (e < now)
  | none => false

/-- Body of `getUserOAuthToken` after a successful read: the rows matching
the key are ordered newest-first; duplicates beyond the newest are deleted
(best effort); the newest row is the authority; an expired authority yields
`null`.  Returns the caller-visible value and the store after the deletes. -/
def fetchCurrent (store : List TokenRow) (userId platform : String) (now : Nat) :
    Option String × List TokenRow :=
  match sortByUpdatedDesc (store.filter (rowMatches userId platform)) with
  | [] => (none, store)
  | tokenData :: rest =>
    let store' := rest.foldl
      (fun s t => deleteByUpdatedAt s userId platform t.updated_at) store
    if isExpired tokenData now then (none, store')
    else (some tokenData.access_token, store')

/-- `getUserOAuthToken(userId, platform)`.  `queryError` models the supabase
read coming back with `error` set (a transport failure): the source does
`if (error) { console.error(...); return null; }`. -/
def getUserOAuthToken (queryError : Bool) (store : List TokenRow)
    (userId platform : String) (now : Nat) : Option String × List TokenRow :=
  if queryError then (none, store)
  else fetchCurrent store userId platform now

/-- The callback's `expiresAt` computation:
`tokenData.expires_in ? new Date(Date.now() + (tokenData.expires_in * 1000)).toISOString() : null`. -/
def computeExpiresAt (expiresIn : Option Nat) (nowMs : Nat) : Option Nat :=
  expiresIn.map fun s => nowMs + s * 1000

/-! ## StateCodec, byte level: standard base64

`Buffer.from(x).toString('base64')` / `Buffer.from(s, 'base64')` on byte
lists.  `61` is the ASCII code of the padding character `=`. -/

/-- The 64 alphabet bytes `A–Z a–z 0–9 + /` in sextet order. -/
def b64alphabet : List Nat :=
  [65, 66, 67, 68, 69, 70, 71, 72, 73, 74, 75, 76, 77, 78, 79, 80, 81, 82,
   83, 84, 85, 86, 87, 88, 89, 90,
   97, 98, 99, 100, 101, 102, 103, 104, 105, 106, 107, 108, 109, 110, 111,
   112, 113, 114, 115, 116, 117, 118, 119, 120, 121, 122,
   48, 49, 50, 51, 52, 53, 54, 55, 56, 57, 43, 47]

/-- Alphabet byte of a sextet. -/
def b64char (s : Nat) : Nat := b64alphabet.getD s 0

/-- Position of a byte in a list (first match). -/
def findIdx : Nat → List Nat → Option Nat
  | _, [] => none
  | c, x :: xs => if x = c then some 0 else (findIdx c xs).map (· + 1)

/-- Sextet of an alphabet byte. -/
def b64val (c : Nat) : Option Nat := findIdx c b64alphabet

/-- base64 encoding of a byte list, three bytes to four alphabet bytes,
`=`-padded. -/
def b64encode : List Nat → List Nat
  | [] => []
  | [b1] => [b64char (b1 / 4), b64char (b1 % 4 * 16), 61, 61]
  | [b1, b2] =>
    [b64char (b1 / 4), b64char (b1 % 4 * 16 + b2 / 16), b64char (b2 % 16 * 4), 61]
  | b1 :: b2 :: b3 :: rest =>
    b64char (b1 / 4) :: b64char (b1 % 4 * 16 + b2 / 16) ::
    b64char (b2 % 16 * 4 + b3 / 64) :: b64char (b3 % 64) :: b64encode rest

/-- base64 decoding of the well-formed grammar (quadruples of alphabet
bytes, final quadruple possibly `=`-padded).  Node's decoder is lenient on
malformed input; the flow only ever decodes output of the encoder, which is
well-formed. -/
def b64decode : List Nat → Option (List Nat)
  | [] => some []
  | c1 :: c2 :: c3 :: c4 :: rest =>
    match b64val c1, b64val c2 with
    | some s1, some s2 =>
      if c3 = 61 then
        if c4 = 61 ∧ rest = [] then some [s1 * 4 + s2 / 16] else none
      else
        match b64val c3 with
        | some s3 =>
          if c4 = 61 then
            if rest = [] then some [s1 * 4 + s2 / 16, s2 % 16 * 16 + s3 / 4]
            else none
          else
            match b64val c4 with
            | some s4 =>
              (b64decode rest).map fun bs =>
                (s1 * 4 + s2 / 16) :: (s2 % 16 * 16 + s3 / 4) :: (s3 % 4 * 64 + s4) :: bs
            | none => none
        | none => none
    | _, _ => none
  | _ => none

/-! ## StateCodec, JSON level

`JSON.parse` on the sublanguage the state flow exercises: one object
literal whose members are string-valued, with no surrounding whitespace
(exactly the texts produced by the compact serializer below). -/

/-- Value of an ASCII hex digit (JSON accepts both cases in `\uXXXX`). -/
def hexVal (c : Nat) : Option Nat :=
  if 48 ≤ c ∧ c ≤ 57 then some (c - 48)
  else if 97 ≤ c ∧ c ≤ 102 then some (c - 87)
  else if 65 ≤ c ∧ c ≤ 70 then some (c - 55)
  else none

/-- Lower-case hex digit byte, as `JSON.stringify` emits in `\u00xx`. -/
def hexDigitLower (h : Nat) : Nat := if h < 10 then 48 + h else 87 + h

/-- Parse a JSON string body (the opening `"` already consumed): returns
the unescaped content and the bytes after the closing `"`.  Handles the
escapes `\" \\ \/ \b \f \n \r \t` and `\u00XX` for ASCII code points;
a raw control byte is a parse error, as in `JSON.parse`. -/
def parseJsonString : List Nat → Option (List Nat × List Nat)
  | [] => none
  | c :: rest =>
    if c = 34 then some ([], rest)
    else if c = 92 then
      match rest with
      | [] => none
      | e :: rest2 =>
        if e = 34 then (parseJsonString rest2).map fun q => (34 :: q.1, q.2)
        else if e = 92 then (parseJsonString rest2).map fun q => (92 :: q.1, q.2)
        else if e = 47 then (parseJsonString rest2).map fun q => (47 :: q.1, q.2)
        else if e = 98 then (parseJsonString rest2).map fun q => (8 :: q.1, q.2)
        else if e = 102 then (parseJsonString rest2).map fun q => (12 :: q.1, q.2)
        else if e = 110 then (parseJsonString rest2).map fun q => (10 :: q.1, q.2)
        else if e = 114 then (parseJsonString rest2).map fun q => (13 :: q.1, q.2)
        else if e = 116 then (parseJsonString rest2).map fun q => (9 :: q.1, q.2)
        else if e = 117 then
          match rest2 with
          | h1 :: h2 :: h3 :: h4 :: rest3 =>
            match hexVal h1, hexVal h2, hexVal h3, hexVal h4 with
            | some a, some b, some c2, some d =>
              let cp := ((a * 16 + b) * 16 + c2) * 16 + d
              if cp < 128 then (parseJsonString rest3).map fun q => (cp :: q.1, q.2)
              else none
            | _, _, _, _ => none
          | _ => none
        else none
    else if c < 32 then none
    else (parseJsonString rest).map fun q => (c :: q.1, q.2)

/-- Parse one `"key":"value"` member; returns the pair and the remaining
bytes. -/
def parseMember : List Nat → Option ((List Nat × List Nat) × List Nat)
  | 34 :: rest =>
    match parseJsonString rest with
    | some (k, 58 :: 34 :: rest2) =>
      match parseJsonString rest2 with
      | some (v, rest3) => some ((k, v), rest3)
      | none => none
    | _ => none
  | _ => none

/-- Parse a comma-separated member sequence (fuel-bounded; the caller
passes the input length, an upper bound on the member count). -/
def parseMembers : Nat → List Nat → Option (List (List Nat × List Nat) × List Nat)
  | 0, _ => none
  | fuel + 1, l =>
    match parseMember l with
    | some (kv, 44 :: rest2) =>
      (parseMembers fuel rest2).map fun q => (kv :: q.1, q.2)
    | some (kv, rest) => some ([kv], rest)
    | none => none

/-- `JSON.parse` on one string-valued object literal: `{` members `}` and
nothing after the closing brace. -/
def parseJsonObj (l : List Nat) : Option (List (List Nat × List Nat)) :=
  match l with
  | 123 :: rest =>
    if rest = [125] then some []
    else
      match parseMembers l.length rest with
      | some (fs, [125]) => some fs
      | _ => none
  | _ => none

/-- Member access on a parsed object (later duplicate keys win, as in
`JSON.parse`); `none` is JavaScript's `undefined`. -/
def jsonLookup (fs : List (List Nat × List Nat)) (key : List Nat) : Option (List Nat) :=
  fs.foldl (fun acc kv => if kv.1 = key then some kv.2 else acc) none

/-- `JSON.stringify` escaping of one string byte. -/
def escapeByte (c : Nat) : List Nat :=
  if c = 34 then [92, 34]
  else if c = 92 then [92, 92]
  else if c = 8 then [92, 98]
  else if c = 9 then [92, 116]
  else if c = 10 then [92, 110]
  else if c = 12 then [92, 102]
  else if c = 13 then [92, 114]
  else if c < 32 then [92, 117, 48, 48, hexDigitLower (c / 16), hexDigitLower (c % 16)]
  else [c]

/-- `JSON.stringify` escaping of a string's bytes. -/
def escapeBytes (s : List Nat) : List Nat := s.flatMap escapeByte

/-- A JSON string literal: `"` escaped content `"`. -/
def jsonStringBytes (s : List Nat) : List Nat := 34 :: escapeBytes s ++ [34]

/-- Bytes of the member name `userId`. -/
def userIdKey : List Nat := [117, 115, 101, 114, 73, 100]

/-- Bytes of the member name `platform`. -/
def platformKey : List Nat := [112, 108, 97, 116, 102, 111, 114, 109]

/-- Interior of the serialized state object:
`"userId":"…","platform":"…"` followed by `}`. -/
def stateBodyBytes (u p : List Nat) : List Nat :=
  jsonStringBytes userIdKey ++ 58 :: jsonStringBytes u ++ 44 ::
    (jsonStringBytes platformKey ++ 58 :: jsonStringBytes p ++ [125])

/-- `JSON.stringify({userId, platform})`. -/
def stateJsonBytes (u p : List Nat) : List Nat := 123 :: stateBodyBytes u p

/-- Modelled from the spec: the authorize-side state encoder is not part of
the repository source (it runs on the initiating client); §4.2 specifies it
as serializing `{userId, platformId}` to a compact textual form and
applying the reversible URL-safe binary-to-text transform, with the
platform under the member name the callback destructures (`platform`).
Concretely: JSON-serialize, then base64-encode. -/
def encodeState (userId platformId : List Nat) : List Nat :=
  b64encode (stateJsonBytes userId platformId)

/-- Lines 1762–1763 of the callback:
`JSON.parse(Buffer.from(state, 'base64').toString())` followed by the
destructuring `const { userId, platform: statePlatform } = stateData`.
Returns `none` when decoding throws, otherwise the pair
`(userId, statePlatform)` with `none` for an absent member (`undefined`). -/
def decodeState (state : List Nat) : Option (Option (List Nat) × Option (List Nat)) :=
  match b64decode state with
  | none => none
  | some bytes =>
    match parseJsonObj bytes with
    | none => none
    | some fs => some (jsonLookup fs userIdKey, jsonLookup fs platformKey)

/-- UTF-8 bytes of a code point. -/
def utf8Bytes (c : Nat) : List Nat :=
  if c < 128 then [c]
  else if c < 2048 then [192 + c / 64, 128 + c % 64]
  else if c < 65536 then [224 + c / 4096, 128 + c / 64 % 64, 128 + c % 64]
  else [240 + c / 262144, 128 + c / 4096 % 64, 128 + c / 64 % 64, 128 + c % 64]

/-- UTF-8 bytes of a string, connecting `String` identifiers to the byte
view used by the codec. -/
def strToBytes (s : String) : List Nat := s.data.flatMap fun ch => utf8Bytes ch.toNat

/-- The platform identifiers the callback's exchange dispatch supports. -/
def supportedPlatforms : List String :=
  ["spotify", "youtube", "google_analytics", "facebook", "instagram",
   "twitter", "tiktok"]

/-! ## ConfigResolver -/

/-- The generic `setting_value` blob of the legacy `platform_settings`
table (`oldData.setting_value?.clientId` and friends). -/
structure SettingBlob where
  clientId : Option String
  clientSecret : Option String
  redirectUri : Option String
  scopes : Option String
  apiEndpoint : Option String
  deriving Repr, DecidableEq

/-- A row of `platform_oauth_configs` / `platform_settings` as selected by
`select('*')`; `none` is an absent (`undefined`/null) column. -/
structure ConfigRow where
  platform_id : String
  enabled : Bool
  client_id : Option String
  client_secret : Option String
  redirect_uri : Option String
  scopes : Option String
  api_endpoint : Option String
  setting_value : Option SettingBlob
  deriving Repr, DecidableEq

/-- `.eq('platform_id', platform).eq('enabled', true).single()`:
`.single()` yields data only when exactly one row matches. -/
def querySingle (rows : List ConfigRow) (platform : String) : Option ConfigRow :=
  match rows.filter (fun r => decide (r.platform_id = platform) && r.enabled) with
  | [r] => some r
  | _ => none

/-- JavaScript `a || b` on possibly-absent strings (an empty string is
falsy). -/
def jsOr (a b : Option String) : Option String :=
  match a with
  | some s => if s.isEmpty then b else some s
  | none => b

/-- The canonical shape `getPlatformConfig` returns. -/
structure PlatformConfig where
  clientId : Option String
  clientSecret : Option String
  redirectUri : Option String
  scopes : Option String
  apiEndpoint : Option String
  deriving Repr, DecidableEq

/-- `getPlatformConfig(platform)`: primary table `platform_oauth_configs`
first; on a miss the legacy table `platform_settings`, taking each field
from the dedicated column with `||`-fallback to the `setting_value` blob;
`null` when neither yields a row. -/
def getPlatformConfig (primary legacy : List ConfigRow) (platform : String) :
    Option PlatformConfig :=
  match querySingle primary platform with
  | some newData => some
    { clientId := newData.client_id
      clientSecret := newData.client_secret
      redirectUri := newData.redirect_uri
      scopes := newData.scopes
      apiEndpoint := newData.api_endpoint }
  | none =>
    match querySingle legacy platform with
    | some oldData => some
      { clientId := jsOr oldData.client_id
          (oldData.setting_value.bind SettingBlob.clientId)
        clientSecret := jsOr oldData.client_secret
          (oldData.setting_value.bind SettingBlob.clientSecret)
        redirectUri := jsOr oldData.redirect_uri
          (oldData.setting_value.bind SettingBlob.redirectUri)
        scopes := jsOr oldData.scopes
          (oldData.setting_value.bind SettingBlob.scopes)
        apiEndpoint := jsOr oldData.api_endpoint
          (oldData.setting_value.bind SettingBlob.apiEndpoint) }
    | none => none

/-! ## CodeExchangeStrategy -/

/-- Normalized provider token response as the exchange functions return it
(`response.data`). -/
structure TokenResponse where
  access_token : String
  refresh_token : Option String
  token_type : Option String
  expires_in : Option Nat
  scope : Option String
  deriving Repr, DecidableEq

/-- Wire shape of a token-endpoint request as built by an exchange
function; `bodyParams` holds the `URLSearchParams` entries in order. -/
structure FormRequest where
  method : String
  url : String
  contentType : Option String
  authorizationHeader : Option String
  bodyParams : List (String × Option String)
  deriving Repr, DecidableEq

/-- ASCII string of a byte list (used only for all-ASCII outputs). -/
def asciiString (l : List Nat) : String := String.mk (l.map Char.ofNat)

/-- `'Basic ' + Buffer.from(clientId + ':' + clientSecret).toString('base64')`
(template literals render an absent field as the text `undefined`). -/
def basicAuthHeader (clientId clientSecret : Option String) : String :=
  "Basic " ++ asciiString (b64encode (strToBytes
    (clientId.getD "undefined" ++ ":" ++ clientSecret.getD "undefined")))

/-- The request `exchangeSpotifyCode` builds: POST, form-encoded body with
grant params and both client credentials in the body; no authorization
header. -/
def spotifyTokenRequest (code : String) (config : ConfigRow) : FormRequest :=
  { method := "POST"
    url := "https://accounts.spotify.com/api/token"
    contentType := some "application/x-www-form-urlencoded"
    authorizationHeader := none
    bodyParams :=
      [("grant_type", some "authorization_code"),
       ("code", some code),
       ("redirect_uri", config.redirect_uri),
       ("client_id", config.client_id),
       ("client_secret", config.client_secret)] }

/-- The request `exchangeTwitterCode` builds: POST, form-encoded, Basic
authorization header, and the fixed placeholder PKCE verifier. -/
def twitterTokenRequest (code : String) (config : ConfigRow) : FormRequest :=
  { method := "POST"
    url := "https://api.twitter.com/2/oauth2/token"
    contentType := some "application/x-www-form-urlencoded"
    authorizationHeader := some (basicAuthHeader config.client_id config.client_secret)
    bodyParams :=
      [("grant_type", some "authorization_code"),
       ("code", some code),
       ("redirect_uri", config.redirect_uri),
       ("client_id", config.client_id),
       ("code_verifier", some "challenge")] }

/-- Network outcomes of the exchange calls, one per exchange function
(`.error` models a thrown axios error with its message; the HTTP layer
itself is outside the embedding). -/
structure ExchangeOracle where
  spotify : String → ConfigRow → Except String TokenResponse
  google : String → ConfigRow → Except String TokenResponse
  facebook : String → ConfigRow → Except String TokenResponse
  twitter : String → ConfigRow → Except String TokenResponse
  tiktok : String → ConfigRow → Except String TokenResponse

/-- The callback's `switch (platform)` over exchange functions; `none` is
the `default` branch (`throw OAuth not implemented`), where no exchange
function runs. -/
def dispatchExchange (ex : ExchangeOracle) (platform code : String)
    (config : ConfigRow) : Option (Except String TokenResponse) :=
  match platform with
  | "spotify" => some (ex.spotify code config)
  | "youtube" => some (ex.google code config)
  | "google_analytics" => some (ex.google code config)
  | "facebook" => some (ex.facebook code config)
  | "instagram" => some (ex.facebook code config)
  | "twitter" => some (ex.twitter code config)
  | "tiktok" => some (ex.tiktok code config)
  | _ => none

/-! ## CallbackOrchestrator -/

/-- The payload of the `oauth_tokens` upsert built by the callback;
`user_id` is the destructured state member and may be `undefined`. -/
structure UpsertRow where
  user_id : Option (List Nat)
  platform_id : String
  access_token : String
  refresh_token : Option String
  token_type : String
  expires_at : Option Nat
  scope : Option String
  updated_at : Nat
  deriving Repr, DecidableEq

/-- The two terminal redirect shapes of the callback route. -/
inductive Redirect where
  | errorRedirect (platform : String) (message : String)
  | successRedirect (platform : String)
  deriving Repr, DecidableEq

/-- External state the callback touches: the primary config table it
queries, the legacy table (consulted only by `getPlatformConfig`, which
the callback does not call), and the outcome of the token upsert
(`some msg` models `storeError`). -/
structure CallbackDb where
  primaryConfigs : List ConfigRow
  legacyConfigs : List ConfigRow
  upsertError : Option String
  deriving Repr, DecidableEq

/-- Everything observable about one callback invocation. -/
structure CallbackOutcome where
  redirect : Redirect
  exchangeCalled : Bool
  upserted : Option UpsertRow
  deriving Repr, DecidableEq

/-- JavaScript truthiness of an optional query-string value. -/
def truthyStr : Option String → Bool
  | none => false
  | some s => !s.isEmpty

/-- JavaScript truthiness of an optional byte-string query value. -/
def truthyBytes : Option (List Nat) → Bool
  | none => false
  | some l => !l.isEmpty

/-- JavaScript `a || b` with a mandatory default (`token_type || 'Bearer'`). -/
def jsOrStr (a : Option String) (b : String) : String :=
  match a with
  | some s => if s.isEmpty then b else s
  | none => b

/-- Representative message of the `SyntaxError` thrown by `JSON.parse` on
an undecodable state (the engine-specific text is irrelevant downstream:
only its conversion to an error redirect matters). -/
def jsonParseErrorMsg : String := "Unexpected token in JSON"

/-- `app.get('/api/auth/callback/:platform')`, lines 1744–1844: provider
error check, presence check for `code`/`state`, state decode and
destructuring, platform-mismatch check, direct primary-table config query,
exchange dispatch, expiry computation, token upsert, and the terminal
redirect; every thrown error is caught and converted to an error
redirect. -/
def callbackHandler (db : CallbackDb) (ex : ExchangeOracle) (platform : String)
    (code : Option String) (state : Option (List Nat)) (error : Option String)
    (nowMs : Nat) : CallbackOutcome :=
  if truthyStr error then
    { redirect := .errorRedirect platform (error.getD ""),
      exchangeCalled := false, upserted := none }
  else if !truthyStr code || !truthyBytes state then
    { redirect := .errorRedirect platform "missing_parameters",
      exchangeCalled := false, upserted := none }
  else
    match decodeState (state.getD []) with
    | none =>
      { redirect := .errorRedirect platform jsonParseErrorMsg,
        exchangeCalled := false, upserted := none }
    | some (userId, statePlatform) =>
      if statePlatform ≠ some (strToBytes platform) then
        { redirect := .errorRedirect platform "Platform mismatch in state",
          exchangeCalled := false, upserted := none }
      else
        match querySingle db.primaryConfigs platform with
        | none =>
          { redirect := .errorRedirect platform
              ("Platform " ++ platform ++ " not configured or not enabled"),
            exchangeCalled := false, upserted := none }
        | some platformConfig =>
          match dispatchExchange ex platform (code.getD "") platformConfig with
          | none =>
            { redirect := .errorRedirect platform
                ("OAuth not implemented for platform: " ++ platform),
              exchangeCalled := false, upserted := none }
          | some (.error msg) =>
            { redirect := .errorRedirect platform msg,
              exchangeCalled := true, upserted := none }
          | some (.ok tokenData) =>
            let expiresAt := computeExpiresAt tokenData.expires_in nowMs
            let row : UpsertRow :=
              { user_id := userId
                platform_id := platform
                access_token := tokenData.access_token
                refresh_token := tokenData.refresh_token
                token_type := jsOrStr tokenData.token_type "Bearer"
                expires_at := expiresAt
                scope := tokenData.scope
                updated_at := nowMs }
            match db.upsertError with
            | some msg =>
              { redirect := .errorRedirect platform msg,
                exchangeCalled := true, upserted := none }
            | none =>
              { redirect := .successRedirect platform,
                exchangeCalled := true, upserted := some row }

/-- Bytes (characters) `encodeURIComponent` leaves unescaped. -/
def uriUnreserved (c : Nat) : Bool :=
  (65 ≤ c && c ≤ 90) || (97 ≤ c && c ≤ 122) || (48 ≤ c && c ≤ 57) ||
    [45, 95, 46, 33, 126, 42, 39, 40, 41].contains c

/-- Upper-case hex digit byte, as `encodeURIComponent` emits. -/
def hexDigitUpper (h : Nat) : Nat := if h < 10 then 48 + h else 55 + h

/-- `%XX` percent-encoding of one byte. -/
def percentEncodeByte (b : Nat) : List Nat :=
  [37, hexDigitUpper (b / 16), hexDigitUpper (b % 16)]

/-- `encodeURIComponent`: UTF-8 bytes, unreserved kept, the rest
percent-encoded. -/
def encodeURIComponent (s : String) : String :=
  asciiString ((strToBytes s).flatMap fun b =>
    if uriUnreserved b then [b] else percentEncodeByte b)

/-- The redirect URLs the route emits:
`${FRONTEND_URL}/auth/callback/${platform}?error=…` and
`…?connected=${platform}&success=true`. -/
def renderRedirect (frontendUrl : String) : Redirect → String
  | .errorRedirect platform msg =>
    frontendUrl ++ "/auth/callback/" ++ platform ++ "?error=" ++
      encodeURIComponent msg
  | .successRedirect platform =>
    frontendUrl ++ "/auth/callback/" ++ platform ++ "?connected=" ++
      platform ++ "&success=true"

/-- A configured, enabled spotify row (shared concrete test datum). -/
def spotifyCfgRow : ConfigRow :=
  ⟨"spotify", true, some "cid", some "sec", some "uri", some "sc", none, none⟩

/-- A concrete provider token response (shared concrete test datum). -/
def sampleToken : TokenResponse :=
  ⟨"AT", some "RT", some "Bearer", some 3600, some "scope-a"⟩

/-- An oracle whose exchanges all succeed with a fixed response. -/
def okOracle (tr : TokenResponse) : ExchangeOracle :=
  { spotify := fun _ _ => .ok tr
    google := fun _ _ => .ok tr
    facebook := fun _ _ => .ok tr
    twitter := fun _ _ => .ok tr
    tiktok := fun _ _ => .ok tr }

/-- `{"platform":"spotify"}` — a decodable state payload missing `userId`. -/
def stateMissingUserId : List Nat :=
  [123, 34, 112, 108, 97, 116, 102, 111, 114, 109, 34, 58,
   34, 115, 112, 111, 116, 105, 102, 121, 34, 125]

end LucyBackend

namespace LucyBackend

/-! ## Theorems: TokenStore -/

/-- C3: when the single stored row for a key has a non-null `expires_at`
strictly before now, `getUserOAuthToken` returns `null`, yet the row stays
physically present in the store (the expiry check deletes nothing). -/
theorem fetchCurrent_expired_returns_none (store : List TokenRow)
    (userId platform : String) (now : Nat) (row : TokenRow) (e : Nat)
    (hf : store.filter (rowMatches userId platform) = [row])
    (he : row.expires_at = some e) (hlt : e < now) :
    getUserOAuthToken false store userId platform now = (none, store) ∧ row ∈ store := by
  constructor
  · simp [getUserOAuthToken, fetchCurrent, hf, sortByUpdatedDesc, insertDesc, isExpired, he, hlt]
  · have hm : row ∈ store.filter (rowMatches userId platform) := by
      rw [hf]; exact List.mem_singleton.mpr rfl
    exact List.mem_of_mem_filter hm

/-- Witness for C3 at a concrete expired row. -/
theorem fetchCurrent_expired_returns_none_witness :
    getUserOAuthToken false [⟨"u1", "spotify", "tok", none, some 5, 1⟩]
      "u1" "spotify" 10 = (none, [⟨"u1", "spotify", "tok", none, some 5, 1⟩]) ∧
    (⟨"u1", "spotify", "tok", none, some 5, 1⟩ : TokenRow) ∈
      [(⟨"u1", "spotify", "tok", none, some 5, 1⟩ : TokenRow)] :=
  fetchCurrent_expired_returns_none _ "u1" "spotify" 10 _ 5 (by decide) rfl (by decide)

/-- C10: a stored row with `expires_at = null` (which the callback writes
whenever the provider response has no `expires_in`) skips the expiry check:
`getUserOAuthToken` returns its access token at every `now`. -/
theorem fetchCurrent_null_expiry_never_expires (store : List TokenRow)
    (userId platform : String) (row : TokenRow)
    (hf : store.filter (rowMatches userId platform) = [row])
    (he : row.expires_at = none) :
    (∀ nowMs, computeExpiresAt none nowMs = none) ∧
    ∀ now, getUserOAuthToken false store userId platform now =
      (some row.access_token, store) := by
  refine ⟨fun nowMs => rfl, fun now => ?_⟩
  simp [getUserOAuthToken, fetchCurrent, hf, sortByUpdatedDesc, insertDesc, isExpired, he]

/-- Witness for C10 at a concrete never-expiring row. -/
theorem fetchCurrent_null_expiry_never_expires_witness :
    (∀ nowMs, computeExpiresAt none nowMs = none) ∧
    ∀ now, getUserOAuthToken false [⟨"u1", "spotify", "tok", none, none, 1⟩]
      "u1" "spotify" now =
      (some "tok", [⟨"u1", "spotify", "tok", none, none, 1⟩]) :=
  fetchCurrent_null_expiry_never_expires _ "u1" "spotify"
    ⟨"u1", "spotify", "tok", none, none, 1⟩ (by decide) rfl

/-- C5 counterexample: a transport failure of the store read and a plain
missing token produce the identical caller-visible value `null`; nothing in
the return distinguishes StoreUnavailable from NoToken. -/
theorem getUserOAuthToken_conflates_error_and_missing :
    (getUserOAuthToken true [⟨"u1", "spotify", "tok", none, none, 1⟩]
      "u1" "spotify" 0).1 = none ∧
    (getUserOAuthToken false [] "u1" "spotify" 0).1 = none :=
  ⟨rfl, rfl⟩

/-- C5 amended: a transport failure from the store read is caught and
returned as `null` — the same value as a missing token — with no deletions
performed; the caller cannot distinguish the two outcomes. -/
theorem getUserOAuthToken_error_returns_null (store : List TokenRow)
    (userId platform : String) (now : Nat) :
    getUserOAuthToken true store userId platform now = (none, store) := rfl

/-- C4: three duplicate rows for one key with distinct `updated_at`: the
first read deletes exactly the two non-newest rows and returns the newest
row's token; a second read returns the same token and deletes nothing. -/
theorem fetchCurrent_dedup_idempotent (userId platform : String)
    (r1 r2 r3 : TokenRow) (now : Nat)
    (k1 : rowMatches userId platform r1 = true)
    (k2 : rowMatches userId platform r2 = true)
    (k3 : rowMatches userId platform r3 = true)
    (h12 : r1.updated_at < r2.updated_at) (h23 : r2.updated_at < r3.updated_at)
    (hexp : isExpired r3 now = false) :
    getUserOAuthToken false [r1, r2, r3] userId platform now =
      (some r3.access_token, [r3]) ∧
    getUserOAuthToken false [r3] userId platform now =
      (some r3.access_token, [r3]) := by
  have e13 : r1.updated_at ≤ r3.updated_at := by omega
  have e12 : r1.updated_at ≤ r2.updated_at := by omega
  have e23 : r2.updated_at ≤ r3.updated_at := by omega
  have n12 : ¬ r1.updated_at = r2.updated_at := by omega
  have n32 : ¬ r3.updated_at = r2.updated_at := by omega
  have n21 : ¬ r2.updated_at = r1.updated_at := by omega
  have n31 : ¬ r3.updated_at = r1.updated_at := by omega
  have hfil : List.filter (rowMatches userId platform) [r1, r2, r3] = [r1, r2, r3] := by
    simp [List.filter_cons, k1, k2, k3]
  have hsort : sortByUpdatedDesc [r1, r2, r3] = [r3, r2, r1] := by
    simp [sortByUpdatedDesc, insertDesc, e12, e13, e23]
  have hd1 : deleteByUpdatedAt [r1, r2, r3] userId platform r2.updated_at = [r1, r3] := by
    simp [deleteByUpdatedAt, List.filter_cons, k1, k2, k3, n12, n32]
  have hd2 : deleteByUpdatedAt [r1, r3] userId platform r1.updated_at = [r3] := by
    simp [deleteByUpdatedAt, List.filter_cons, k1, k3, n31]
  constructor
  · simp [getUserOAuthToken, fetchCurrent, hfil, hsort, hd1, hd2, hexp]
  · simp [getUserOAuthToken, fetchCurrent, List.filter_cons, k3,
      sortByUpdatedDesc, insertDesc, hexp]

/-- Witness for C4 at three concrete duplicate rows. -/
theorem fetchCurrent_dedup_idempotent_witness :
    getUserOAuthToken false
      [⟨"u1", "spotify", "a", none, none, 3⟩,
       ⟨"u1", "spotify", "b", none, none, 7⟩,
       ⟨"u1", "spotify", "c", none, none, 5⟩] "u1" "spotify" 0 =
      (some "b", [⟨"u1", "spotify", "b", none, none, 7⟩]) ∧
    getUserOAuthToken false [⟨"u1", "spotify", "b", none, none, 7⟩]
      "u1" "spotify" 0 =
      (some "b", [⟨"u1", "spotify", "b", none, none, 7⟩]) :=
  fetchCurrent_dedup_idempotent "u1" "spotify"
    ⟨"u1", "spotify", "a", none, none, 3⟩
    ⟨"u1", "spotify", "c", none, none, 5⟩
    ⟨"u1", "spotify", "b", none, none, 7⟩ 0
    (by decide) (by decide) (by decide) (by decide) (by decide) rfl

end LucyBackend

namespace LucyBackend

/-! ## Lemmas: base64 -/

theorem b64val_b64char : ∀ s, s < 64 → b64val (b64char s) = some s := by decide

theorem b64char_ne_pad : ∀ s, s < 64 → b64char s ≠ 61 := by decide

theorem b64_roundtrip (l : List Nat) (h : ∀ b ∈ l, b < 256) :
    b64decode (b64encode l) = some l := by
  match l with
  | [] => rfl
  | [b1] =>
    have hb1 : b1 < 256 := h b1 (by simp)
    have h1 : b1 / 4 < 64 := by omega
    have h2 : b1 % 4 * 16 < 64 := by omega
    simp only [b64encode, b64decode, b64val_b64char _ h1, b64val_b64char _ h2]
    simp only [if_true, and_self]
    have : b1 / 4 * 4 + b1 % 4 * 16 / 16 = b1 := by omega
    rw [this]
  | [b1, b2] =>
    have hb1 : b1 < 256 := h b1 (by simp)
    have hb2 : b2 < 256 := h b2 (by simp)
    have h1 : b1 / 4 < 64 := by omega
    have h2 : b1 % 4 * 16 + b2 / 16 < 64 := by omega
    have h3 : b2 % 16 * 4 < 64 := by omega
    simp only [b64encode, b64decode, b64val_b64char _ h1, b64val_b64char _ h2,
      b64val_b64char _ h3]
    rw [if_neg (b64char_ne_pad _ h3)]
    simp only [if_true]
    have e1 : b1 / 4 * 4 + (b1 % 4 * 16 + b2 / 16) / 16 = b1 := by omega
    have e2 : (b1 % 4 * 16 + b2 / 16) % 16 * 16 + b2 % 16 * 4 / 4 = b2 := by omega
    rw [e1, e2]
  | b1 :: b2 :: b3 :: b4 :: rest =>
    have hb1 : b1 < 256 := h b1 (by simp)
    have hb2 : b2 < 256 := h b2 (by simp)
    have hb3 : b3 < 256 := h b3 (by simp)
    have h1 : b1 / 4 < 64 := by omega
    have h2 : b1 % 4 * 16 + b2 / 16 < 64 := by omega
    have h3 : b2 % 16 * 4 + b3 / 64 < 64 := by omega
    have h4 : b3 % 64 < 64 := by omega
    have ih : b64decode (b64encode (b4 :: rest)) = some (b4 :: rest) :=
      b64_roundtrip (b4 :: rest) (fun b hb => h b (by simp [hb]))
    simp only [b64encode, b64decode, b64val_b64char _ h1, b64val_b64char _ h2,
      b64val_b64char _ h3, b64val_b64char _ h4]
    rw [if_neg (b64char_ne_pad _ h3), if_neg (b64char_ne_pad _ h4)]
    rw [ih]
    have e1 : b1 / 4 * 4 + (b1 % 4 * 16 + b2 / 16) / 16 = b1 := by omega
    have e2 : (b1 % 4 * 16 + b2 / 16) % 16 * 16 + (b2 % 16 * 4 + b3 / 64) / 4 = b2 := by
      omega
    have e3 : (b2 % 16 * 4 + b3 / 64) % 4 * 64 + b3 % 64 = b3 := by omega
    simp only [e1, e2, e3]
    rfl
  | [b1, b2, b3] =>
    have hb1 : b1 < 256 := h b1 (by simp)
    have hb2 : b2 < 256 := h b2 (by simp)
    have hb3 : b3 < 256 := h b3 (by simp)
    have h1 : b1 / 4 < 64 := by omega
    have h2 : b1 % 4 * 16 + b2 / 16 < 64 := by omega
    have h3 : b2 % 16 * 4 + b3 / 64 < 64 := by omega
    have h4 : b3 % 64 < 64 := by omega
    simp only [b64encode, b64decode, b64val_b64char _ h1, b64val_b64char _ h2,
      b64val_b64char _ h3, b64val_b64char _ h4]
    rw [if_neg (b64char_ne_pad _ h3), if_neg (b64char_ne_pad _ h4)]
    have e1 : b1 / 4 * 4 + (b1 % 4 * 16 + b2 / 16) / 16 = b1 := by omega
    have e2 : (b1 % 4 * 16 + b2 / 16) % 16 * 16 + (b2 % 16 * 4 + b3 / 64) / 4 = b2 := by
      omega
    have e3 : (b2 % 16 * 4 + b3 / 64) % 4 * 64 + b3 % 64 = b3 := by omega
    simp only [e1, e2, e3]
    rfl

end LucyBackend

namespace LucyBackend

/-! ## Lemmas: JSON serialization round trip -/

theorem hexVal_hexDigitLower : ∀ h, h < 16 → hexVal (hexDigitLower h) = some h := by
  decide

theorem hexDigitLower_lt (h : Nat) (hh : h < 16) : hexDigitLower h < 256 := by
  unfold hexDigitLower; split_ifs <;> omega

theorem parseJsonString_escape (s : List Nat) :
    ∀ rest, parseJsonString (escapeBytes s ++ 34 :: rest) = some (s, rest) := by
  induction s with
  | nil =>
    intro rest
    rw [show escapeBytes [] ++ 34 :: rest = 34 :: rest by simp [escapeBytes]]
    rw [parseJsonString.eq_def]; simp
  | cons c s' ih =>
    intro rest
    have hstep : escapeBytes (c :: s') ++ 34 :: rest =
        escapeByte c ++ (escapeBytes s' ++ 34 :: rest) := by
      simp [escapeBytes, List.append_assoc]
    rw [hstep]
    by_cases h34 : c = 34
    · subst h34
      simp only [escapeByte, if_pos rfl, List.cons_append, List.nil_append]
      rw [parseJsonString.eq_def]; simp [ih]
    by_cases h92 : c = 92
    · subst h92
      simp only [escapeByte, show ¬(92 = 34) by decide, if_neg, if_pos rfl,
        List.cons_append, List.nil_append, if_false]
      rw [parseJsonString.eq_def]; simp [ih]
    by_cases h8 : c = 8
    · subst h8
      simp [escapeByte]
      rw [parseJsonString.eq_def]; simp [ih]
    by_cases h9 : c = 9
    · subst h9
      simp [escapeByte]
      rw [parseJsonString.eq_def]; simp [ih]
    by_cases h10 : c = 10
    · subst h10
      simp [escapeByte]
      rw [parseJsonString.eq_def]; simp [ih]
    by_cases h12 : c = 12
    · subst h12
      simp [escapeByte]
      rw [parseJsonString.eq_def]; simp [ih]
    by_cases h13 : c = 13
    · subst h13
      simp [escapeByte]
      rw [parseJsonString.eq_def]; simp [ih]
    by_cases hctl : c < 32
    · have hv0 : hexVal 48 = some 0 := by decide
      have hv1 : hexVal (hexDigitLower (c / 16)) = some (c / 16) :=
        hexVal_hexDigitLower _ (by omega)
      have hv2 : hexVal (hexDigitLower (c % 16)) = some (c % 16) :=
        hexVal_hexDigitLower _ (by omega)
      simp only [escapeByte, if_neg h34, if_neg h92, if_neg h8, if_neg h9,
        if_neg h10, if_neg h12, if_neg h13, if_pos hctl, List.cons_append,
        List.nil_append]
      rw [parseJsonString.eq_def]
      simp only [hv0, hv1, hv2]
      have hlt : ((0 * 16 + 0) * 16 + c / 16) * 16 + c % 16 < 128 := by omega
      have heq : ((0 * 16 + 0) * 16 + c / 16) * 16 + c % 16 = c := by omega
      simp [ih, hlt, heq]
      omega
    · simp only [escapeByte, if_neg h34, if_neg h92, if_neg h8, if_neg h9,
        if_neg h10, if_neg h12, if_neg h13, if_neg hctl, List.cons_append,
        List.nil_append]
      rw [parseJsonString.eq_def]
      simp [h34, h92, hctl, ih]

theorem parseMember_spec (k v tail : List Nat) :
    parseMember (jsonStringBytes k ++ 58 :: jsonStringBytes v ++ tail) =
      some ((k, v), tail) := by
  have h1 : jsonStringBytes k ++ 58 :: jsonStringBytes v ++ tail =
      34 :: (escapeBytes k ++ 34 :: 58 :: 34 :: (escapeBytes v ++ 34 :: tail)) := by
    simp [jsonStringBytes, List.append_assoc]
  rw [h1]
  simp [parseMember, parseJsonString_escape]

theorem parseMembers_state (u p : List Nat) (f : Nat) :
    parseMembers (f + 2) (stateBodyBytes u p) =
      some ([(userIdKey, u), (platformKey, p)], [125]) := by
  have e1 := parseMember_spec userIdKey u
    (44 :: (jsonStringBytes platformKey ++ 58 :: jsonStringBytes p ++ [125]))
  have e2 := parseMember_spec platformKey p [125]
  show parseMembers (f + 1 + 1) (stateBodyBytes u p) = _
  simp only [stateBodyBytes, parseMembers, e1, e2]
  rfl

theorem parseJsonObj_state (u p : List Nat) :
    parseJsonObj (stateJsonBytes u p) = some [(userIdKey, u), (platformKey, p)] := by
  obtain ⟨t, ht⟩ : ∃ t, stateBodyBytes u p = 34 :: t := ⟨_, rfl⟩
  have hne : ¬ stateBodyBytes u p = [125] := by rw [ht]; simp
  have hsz : (123 :: stateBodyBytes u p).length = t.length + 2 := by
    rw [ht]; simp
  simp only [stateJsonBytes, parseJsonObj, if_neg hne, hsz, parseMembers_state]

theorem jsonLookup_state_userId (u p : List Nat) :
    jsonLookup [(userIdKey, u), (platformKey, p)] userIdKey = some u := by
  simp [jsonLookup, userIdKey, platformKey]

theorem jsonLookup_state_platform (u p : List Nat) :
    jsonLookup [(userIdKey, u), (platformKey, p)] platformKey = some p := by
  simp [jsonLookup, userIdKey, platformKey]

theorem escapeByte_lt (c : Nat) (hc : c < 256) : ∀ x ∈ escapeByte c, x < 256 := by
  intro x hx
  have d1 : hexDigitLower (c / 16) < 256 := hexDigitLower_lt _ (by omega)
  have d2 : hexDigitLower (c % 16) < 256 := hexDigitLower_lt _ (by omega)
  unfold escapeByte at hx
  split_ifs at hx <;> simp_all <;> omega

theorem escapeBytes_lt (s : List Nat) (h : ∀ b ∈ s, b < 256) :
    ∀ x ∈ escapeBytes s, x < 256 := by
  intro x hx
  rw [escapeBytes, List.mem_flatMap] at hx
  obtain ⟨c, hc, hxc⟩ := hx
  exact escapeByte_lt c (h c hc) x hxc

theorem jsonStringBytes_lt (s : List Nat) (h : ∀ b ∈ s, b < 256) :
    ∀ x ∈ jsonStringBytes s, x < 256 := by
  intro x hx
  unfold jsonStringBytes at hx
  rcases List.mem_append.mp hx with hx | hx
  · rcases List.mem_cons.mp hx with rfl | hx
    · omega
    · exact escapeBytes_lt s h x hx
  · have : x = 34 := List.mem_singleton.mp hx
    omega

theorem stateJsonBytes_lt (u p : List Nat)
    (hu : ∀ b ∈ u, b < 256) (hp : ∀ b ∈ p, b < 256) :
    ∀ x ∈ stateJsonBytes u p, x < 256 := by
  have hk1 : ∀ b ∈ userIdKey, b < 256 := by decide
  have hk2 : ∀ b ∈ platformKey, b < 256 := by decide
  intro x hx
  unfold stateJsonBytes stateBodyBytes at hx
  simp only [List.mem_cons, List.mem_append, List.mem_singleton,
    List.not_mem_nil, or_false] at hx
  rcases hx with rfl | (hx | rfl | hx) | (rfl | (hx | rfl | hx) | rfl) <;>
    first
      | omega
      | exact jsonStringBytes_lt _ hk1 x hx
      | exact jsonStringBytes_lt _ hu x hx
      | exact jsonStringBytes_lt _ hk2 x hx
      | exact jsonStringBytes_lt _ hp x hx

theorem decodeState_roundtrip (u p : List Nat)
    (hu : ∀ b ∈ u, b < 256) (hp : ∀ b ∈ p, b < 256) :
    decodeState (encodeState u p) = some (some u, some p) := by
  unfold decodeState encodeState
  rw [b64_roundtrip _ (stateJsonBytes_lt u p hu hp)]
  simp only [parseJsonObj_state, jsonLookup_state_userId, jsonLookup_state_platform]

/-- C2: for every byte-string user id and every supported platform id,
decoding the encoded state (base64 then JSON parse, as the callback does)
recovers exactly `{userId, platform}`, the platform under the member name
the callback destructures. -/
theorem state_roundtrip (userId platformId : List Nat)
    (hu : ∀ b ∈ userId, b < 256)
    (hmem : platformId ∈ supportedPlatforms.map strToBytes) :
    decodeState (encodeState userId platformId) =
      some (some userId, some platformId) := by
  have hp : ∀ b ∈ platformId, b < 256 := by
    simp only [supportedPlatforms, List.map_cons, List.map_nil, List.mem_cons,
      List.not_mem_nil, or_false] at hmem
    rcases hmem with rfl | rfl | rfl | rfl | rfl | rfl | rfl <;> decide
  exact decodeState_roundtrip userId platformId hu hp

/-- Witness for C2 at a concrete user id and platform. -/
theorem state_roundtrip_witness :
    (∀ b ∈ strToBytes "user-1", b < 256) ∧
    strToBytes "spotify" ∈ supportedPlatforms.map strToBytes ∧
    decodeState (encodeState (strToBytes "user-1") (strToBytes "spotify")) =
      some (some (strToBytes "user-1"), some (strToBytes "spotify")) :=
  ⟨by decide, by simp [supportedPlatforms],
    state_roundtrip _ _ (by decide) (by simp [supportedPlatforms])⟩

end LucyBackend

namespace LucyBackend

/-! ## Theorems: CallbackOrchestrator and exchange shapes -/

/-- C1: a decoded state whose platform member differs from the URL path
platform halts the callback before any exchange dispatch and before any
token write; the terminal action is the mismatch error redirect and no
`oauth_tokens` upsert happens. -/
theorem callback_state_platform_mismatch_halts
    (db : CallbackDb) (ex : ExchangeOracle) (platform : String)
    (code : Option String) (state : Option (List Nat)) (error : Option String)
    (nowMs : Nat) (uid : Option (List Nat)) (sp : List Nat)
    (herr : truthyStr error = false) (hcode : truthyStr code = true)
    (hstate : truthyBytes state = true)
    (hdec : decodeState (state.getD []) = some (uid, some sp))
    (hne : sp ≠ strToBytes platform) :
    callbackHandler db ex platform code state error nowMs =
      { redirect := .errorRedirect platform "Platform mismatch in state",
        exchangeCalled := false, upserted := none } := by
  unfold callbackHandler
  simp [herr, hcode, hstate, hdec, hne]

/-- Witness for C1: a spotify state arriving on the youtube callback. -/
theorem callback_state_platform_mismatch_halts_witness :
    truthyStr (none : Option String) = false ∧
    truthyStr (some "code") = true ∧
    truthyBytes (some (encodeState (strToBytes "u1") (strToBytes "spotify"))) = true ∧
    decodeState ((some (encodeState (strToBytes "u1") (strToBytes "spotify"))).getD []) =
      some (some (strToBytes "u1"), some (strToBytes "spotify")) ∧
    strToBytes "spotify" ≠ strToBytes "youtube" ∧
    callbackHandler ⟨[spotifyCfgRow], [], none⟩ (okOracle sampleToken) "youtube"
        (some "code") (some (encodeState (strToBytes "u1") (strToBytes "spotify")))
        none 0 =
      { redirect := .errorRedirect "youtube" "Platform mismatch in state",
        exchangeCalled := false, upserted := none } :=
  ⟨rfl, rfl, by decide, by decide, by decide,
    callback_state_platform_mismatch_halts ⟨[spotifyCfgRow], [], none⟩
      (okOracle sampleToken) "youtube" (some "code")
      (some (encodeState (strToBytes "u1") (strToBytes "spotify"))) none 0
      (some (strToBytes "u1")) (strToBytes "spotify")
      rfl rfl (by decide) (by decide) (by decide)⟩

/-- C9: for every combination of query parameters and every decode,
config, exchange and store outcome, the callback's terminal action is a
redirect to the front-end callback URL templated with the path platform,
carrying either an `error` query parameter or `connected=…&success=true`;
no branch produces anything else. -/
theorem callback_always_redirects (frontendUrl : String) (db : CallbackDb)
    (ex : ExchangeOracle) (platform : String) (code : Option String)
    (state : Option (List Nat)) (error : Option String) (nowMs : Nat) :
    ∃ q, renderRedirect frontendUrl
        (callbackHandler db ex platform code state error nowMs).redirect =
        frontendUrl ++ "/auth/callback/" ++ platform ++ q ∧
      ((∃ m, q = "?error=" ++ encodeURIComponent m) ∨
        q = "?connected=" ++ platform ++ "&success=true") := by
  have h : (∃ m, (callbackHandler db ex platform code state error nowMs).redirect =
        Redirect.errorRedirect platform m) ∨
      (callbackHandler db ex platform code state error nowMs).redirect =
        Redirect.successRedirect platform := by
    unfold callbackHandler
    repeat' split
    all_goals first
      | exact Or.inl ⟨_, rfl⟩
      | exact Or.inr rfl
  rcases h with ⟨m, hm⟩ | hm
  · refine ⟨"?error=" ++ encodeURIComponent m, ?_, Or.inl ⟨m, rfl⟩⟩
    rw [hm]
    simp [renderRedirect, String.append_assoc]
  · refine ⟨"?connected=" ++ platform ++ "&success=true", ?_, Or.inr rfl⟩
    rw [hm]
    simp [renderRedirect, String.append_assoc]

/-- C6 counterexample: with the primary config source empty and the legacy
source holding an enabled spotify row, a fully valid spotify callback still
redirects "not configured", dispatching no exchange and writing nothing —
even though `getPlatformConfig` (which the callback does not call) would
have resolved the legacy row. -/
theorem callback_ignores_legacy_config :
    callbackHandler ⟨[], [spotifyCfgRow], none⟩ (okOracle sampleToken) "spotify"
        (some "code") (some (encodeState (strToBytes "u1") (strToBytes "spotify")))
        none 0 =
      { redirect := .errorRedirect "spotify"
          "Platform spotify not configured or not enabled",
        exchangeCalled := false, upserted := none } ∧
    getPlatformConfig [] [spotifyCfgRow] "spotify" =
      some ⟨some "cid", some "sec", some "uri", some "sc", none⟩ := by
  constructor
  · decide
  · decide

/-- C6 amended: during callback handling the platform configuration is
read from the primary source only (a direct `platform_oauth_configs`
query); when that query yields no single enabled row the callback
redirects "not configured" regardless of the legacy source, whose fallback
lives only in the helper `getPlatformConfig`, which the callback never
calls. -/
theorem callback_config_primary_only
    (db : CallbackDb) (ex : ExchangeOracle) (platform : String)
    (code : Option String) (state : Option (List Nat)) (error : Option String)
    (nowMs : Nat) (uid : Option (List Nat))
    (herr : truthyStr error = false) (hcode : truthyStr code = true)
    (hstate : truthyBytes state = true)
    (hdec : decodeState (state.getD []) = some (uid, some (strToBytes platform)))
    (hprim : querySingle db.primaryConfigs platform = none) :
    callbackHandler db ex platform code state error nowMs =
      { redirect := .errorRedirect platform
          ("Platform " ++ platform ++ " not configured or not enabled"),
        exchangeCalled := false, upserted := none } := by
  unfold callbackHandler
  simp [herr, hcode, hstate, hdec, hprim]

/-- Witness for the amended C6. -/
theorem callback_config_primary_only_witness :
    truthyStr (none : Option String) = false ∧
    truthyStr (some "code") = true ∧
    truthyBytes (some (encodeState (strToBytes "u1") (strToBytes "spotify"))) = true ∧
    decodeState ((some (encodeState (strToBytes "u1") (strToBytes "spotify"))).getD []) =
      some (some (strToBytes "u1"), some (strToBytes "spotify")) ∧
    querySingle ([] : List ConfigRow) "spotify" = none ∧
    callbackHandler ⟨[], [spotifyCfgRow], none⟩ (okOracle sampleToken) "spotify"
        (some "code") (some (encodeState (strToBytes "u1") (strToBytes "spotify")))
        none 0 =
      { redirect := .errorRedirect "spotify"
          "Platform spotify not configured or not enabled",
        exchangeCalled := false, upserted := none } :=
  ⟨rfl, rfl, by decide, by decide, rfl,
    callback_config_primary_only ⟨[], [spotifyCfgRow], none⟩
      (okOracle sampleToken) "spotify" (some "code")
      (some (encodeState (strToBytes "u1") (strToBytes "spotify"))) none 0
      (some (strToBytes "u1"))
      rfl rfl (by decide) (by decide) rfl⟩

/-- C7 counterexample: the spotify exchange request carries no Basic
authorization header, and `client_secret` is sent in the form body. -/
theorem spotify_secret_in_body_no_basic_header :
    (spotifyTokenRequest "c" spotifyCfgRow).authorizationHeader = none ∧
    ("client_secret", some "sec") ∈ (spotifyTokenRequest "c" spotifyCfgRow).bodyParams :=
  ⟨rfl, by decide⟩

/-- C7 amended: the spotify exchange is a POST with form-encoded body;
the grant params are grant_type=authorization_code, code and redirect_uri,
and the client is authenticated by client_id and client_secret in the body
— no Basic authorization header (the twitter exchange is the one that
presents a Basic header). -/
theorem spotify_request_shape (code : String) (config : ConfigRow) :
    (spotifyTokenRequest code config).method = "POST" ∧
    (spotifyTokenRequest code config).url = "https://accounts.spotify.com/api/token" ∧
    (spotifyTokenRequest code config).contentType =
      some "application/x-www-form-urlencoded" ∧
    (spotifyTokenRequest code config).authorizationHeader = none ∧
    (spotifyTokenRequest code config).bodyParams =
      [("grant_type", some "authorization_code"), ("code", some code),
       ("redirect_uri", config.redirect_uri), ("client_id", config.client_id),
       ("client_secret", config.client_secret)] ∧
    (twitterTokenRequest code config).authorizationHeader =
      some (basicAuthHeader config.client_id config.client_secret) :=
  ⟨rfl, rfl, rfl, rfl, rfl, rfl⟩

/-- C8 counterexample: a well-formed state missing only `userId` (platform
matching the path) does not abort: the exchange is dispatched and an
`oauth_tokens` row is upserted with an undefined (`none`) user id. -/
theorem callback_missing_userId_proceeds :
    decodeState (b64encode stateMissingUserId) =
      some (none, some (strToBytes "spotify")) ∧
    callbackHandler ⟨[spotifyCfgRow], [], none⟩ (okOracle sampleToken) "spotify"
        (some "code") (some (b64encode stateMissingUserId)) none 0 =
      { redirect := .successRedirect "spotify", exchangeCalled := true,
        upserted := some ⟨none, "spotify", "AT", some "RT", "Bearer",
          some 3600000, some "scope-a", 0⟩ } := by
  constructor <;> decide

/-- C8 amended: a state that fails to decode, or whose `platform` member
is absent or differs from the path platform, aborts before any side
effect (error redirect, no exchange dispatch, no upsert); a decodable
state missing only `userId` is not rejected — the flow proceeds to the
exchange and upsert with an undefined user id. -/
theorem callback_invalid_state_halts
    (db : CallbackDb) (ex : ExchangeOracle) (platform : String)
    (code : Option String) (state : Option (List Nat)) (error : Option String)
    (nowMs : Nat)
    (herr : truthyStr error = false) (hcode : truthyStr code = true)
    (hstate : truthyBytes state = true)
    (hbad : decodeState (state.getD []) = none ∨
      ∃ uid sp, decodeState (state.getD []) = some (uid, sp) ∧
        sp ≠ some (strToBytes platform)) :
    (callbackHandler db ex platform code state error nowMs).exchangeCalled = false ∧
    (callbackHandler db ex platform code state error nowMs).upserted = none ∧
    ∃ m, (callbackHandler db ex platform code state error nowMs).redirect =
      Redirect.errorRedirect platform m := by
  rcases hbad with hdec | ⟨uid, sp, hdec, hne⟩
  · have h : callbackHandler db ex platform code state error nowMs =
        { redirect := .errorRedirect platform jsonParseErrorMsg,
          exchangeCalled := false, upserted := none } := by
      unfold callbackHandler
      simp [herr, hcode, hstate, hdec]
    rw [h]
    exact ⟨rfl, rfl, _, rfl⟩
  · have h : callbackHandler db ex platform code state error nowMs =
        { redirect := .errorRedirect platform "Platform mismatch in state",
          exchangeCalled := false, upserted := none } := by
      unfold callbackHandler
      simp [herr, hcode, hstate, hdec, hne]
    rw [h]
    exact ⟨rfl, rfl, _, rfl⟩

/-- Witness for the amended C8: an undecodable state. -/
theorem callback_invalid_state_halts_witness :
    truthyStr (none : Option String) = false ∧
    truthyStr (some "code") = true ∧
    truthyBytes (some [1, 2, 3]) = true ∧
    decodeState ((some [1, 2, 3] : Option (List Nat)).getD []) = none ∧
    ((callbackHandler ⟨[spotifyCfgRow], [], none⟩ (okOracle sampleToken) "spotify"
        (some "code") (some [1, 2, 3]) none 0).exchangeCalled = false ∧
      (callbackHandler ⟨[spotifyCfgRow], [], none⟩ (okOracle sampleToken) "spotify"
        (some "code") (some [1, 2, 3]) none 0).upserted = none ∧
      ∃ m, (callbackHandler ⟨[spotifyCfgRow], [], none⟩ (okOracle sampleToken) "spotify"
        (some "code") (some [1, 2, 3]) none 0).redirect =
          Redirect.errorRedirect "spotify" m) :=
  ⟨rfl, rfl, rfl, rfl,
    callback_invalid_state_halts ⟨[spotifyCfgRow], [], none⟩
      (okOracle sampleToken) "spotify" (some "code") (some [1, 2, 3]) none 0
      rfl rfl rfl (Or.inl (by decide))⟩

end LucyBackend
